import Mathlib

/-!
Shallow embedding of `src/examples/demo/src/main.cpp` (ANARI/GLFW demo).

The demo's own code is orchestration: it builds a scene through the ANARI
API, drives a render loop, and handles key input through GLFW.  We embed the
repository's classes (`RenderSystem`, `WindowWrapper`, `DisplaySystem`) as
state records, and every call into the external ANARI / GLFW / GL libraries
as an event appended to a trace.  Floating point scalars are embedded as
rationals; the elapsed-time `sin` is passed in as an abstract function since
its value never influences control flow.
-/

namespace Demo

/-- Scalars (`float` in the source) embedded as rationals. -/
abbrev Scalar := ℚ

/-- `vec3 = std::array<float, 3>`. -/
abbrev Vec3 := Scalar × Scalar × Scalar

/-- `vec4 = std::array<float, 4>`. -/
abbrev Vec4 := Scalar × Scalar × Scalar × Scalar

/-- `uvec2 = std::array<unsigned int, 2>`. -/
abbrev UVec2 := ℕ × ℕ

/-- `uvec3 = std::array<unsigned int, 3>`. -/
abbrev UVec3 := ℕ × ℕ × ℕ

/-- The ANARI objects the demo creates, identified by the variable or member
that holds their handle in `main.cpp`. -/
inductive Obj where
  | device
  | renderer
  | world
  | camera
  | mesh
  | mat
  | surface
  | frame
deriving DecidableEq, Repr

/-- Parameter values passed to `anari::setParameter` /
`anari::setParameterArray1D` in the source. -/
inductive Value where
  | vec3V (v : Vec3)
  | uvec2V (v : UVec2)
  | floatV (q : Scalar)
  | natV (n : ℕ)
  | strV (s : String)
  | dataTypeV (s : String)
  | callbackV (s : String)
  | vec3Arr (a : List Vec3)
  | vec4Arr (a : List Vec4)
  | uvec3Arr (a : List UVec3)
  | objArr (a : List Obj)
deriving DecidableEq, Repr

/-- One call from the demo into an external library (ANARI, GLFW, GL) or to
`printf`.  The demo's behaviour is the trace of these events. -/
inductive Event where
  | log (msg : String)
  | loadLibrary (name : String)
  | getExtensions
  | newDevice (name : String)
  | newObject (o : Obj) (subtype : String)
  | setParam (target : Obj) (name : String) (v : Value)
  | setAndReleaseParam (target : Obj) (name : String) (child : Obj)
  | setParamArray (target : Obj) (name : String) (v : Value)
  | commit (target : Obj)
  | release (o : Obj)
  | unloadLibrary
  | render
  | wait
  | mapFrame
  | unmapFrame
  | pollFramebufferSize (size : UVec2)
  | glViewport (size : UVec2)
  | glClearColor (c : Vec4)
  | glClear
  | glDrawPixels (size : UVec2)
  | swapBuffers
  | pollEvents
  | createWindowCall (width height : ℕ) (title : String)
  | makeContextCurrent
  | setWindowUserPointer
  | setKeyCallback
  | setWindowShouldClose
  | destroyWindow
deriving DecidableEq, Repr

/-! ## WindowWrapper (key handling) -/

/-- GLFW action constant `GLFW_RELEASE`. -/
def GLFW_RELEASE : Int := 0
/-- GLFW action constant `GLFW_PRESS`. -/
def GLFW_PRESS : Int := 1
/-- GLFW action constant `GLFW_REPEAT`. -/
def GLFW_REPEAT : Int := 2
/-- GLFW key constant `GLFW_KEY_ESCAPE`. -/
def GLFW_KEY_ESCAPE : Int := 256
/-- GLFW key constant `GLFW_KEY_A`. -/
def GLFW_KEY_A : Int := 65
/-- GLFW key constant `GLFW_KEY_D`. -/
def GLFW_KEY_D : Int := 68

/-- The GLFW window-level state the demo's key handler touches: the
window's close-request flag (`glfwWindowShouldClose`). -/
structure WinState where
  shouldClose : Bool
deriving DecidableEq, Repr

/-- `WindowWrapper::HandleKey` (main.cpp:237-258).  On a press of escape it
calls `glfwSetWindowShouldClose(window_, GL_TRUE)`; on presses of A, D or any
other key it only prints a message; on non-press actions the whole body is
skipped. -/
def HandleKey (key _scancode action _mods : Int) (w : WinState) :
    WinState × List Event :=
  if action = GLFW_PRESS then
    if key = GLFW_KEY_ESCAPE then
      ({ shouldClose := true },
       [.log "Key: Window should close", .setWindowShouldClose])
    else if key = GLFW_KEY_A then
      (w, [.log "Key: Left"])
    else if key = GLFW_KEY_D then
      (w, [.log "Key: Right"])
    else
      (w, [.log "Key: Unknown input"])
  else
    (w, [])

/-! ## RenderSystem -/

/-- The member state of `RenderSystem` (main.cpp:209-222).  Opaque ANARI
handles are embedded as booleans recording whether the handle is non-null
(value-initialized members start null). -/
structure RSState where
  library_ : Bool
  device_ : Bool
  renderer_ : Bool
  world_ : Bool
  camera_position_ : Vec3
  camera_direction_ : Vec3
  camera_up_ : Vec3
  camera_ : Bool
  frame_size_ : UVec2
  frame_ : Bool
deriving DecidableEq, Repr

/-- A default-constructed `RenderSystem`: all handles null,
`frame_size_{kWidth, kHeight}`. -/
def RSState.initial : RSState where
  library_ := false
  device_ := false
  renderer_ := false
  world_ := false
  camera_position_ := (0, 0, 0)
  camera_direction_ := (0, 0, 0)
  camera_up_ := (0, 0, 0)
  camera_ := false
  frame_size_ := (640, 480)
  frame_ := false

/-- `RenderSystem::~RenderSystem()` (main.cpp:58-68): release the frame when
both device and frame handles are non-null, release the device when it is
non-null, unload the library when it is non-null, in that order. -/
def RSState.dtor (s : RSState) : List Event :=
  (if s.device_ && s.frame_ then [.release .frame] else []) ++
  (if s.device_ then [.release .device] else []) ++
  (if s.library_ then [.unloadLibrary] else [])

/-- The extension flags `RenderSystem::Init` queries
(`anari::extension::getDeviceExtensionStruct`). -/
structure Extensions where
  geometryTriangle : Bool
  cameraPerspective : Bool
  materialMatte : Bool
  frameCompletionCallback : Bool
deriving DecidableEq, Repr

/-- `RenderSystem::Init()` (main.cpp:70-97): load the "helide" library, warn
about unsupported extensions, create a device, create and commit the
renderer. -/
def RSState.init (ext : Extensions) (s : RSState) : RSState × List Event :=
  ({ s with library_ := true, device_ := true, renderer_ := true },
   [.log "Initializing ANARI", .log "Loading a library",
    .loadLibrary "helide", .log "Creating a device", .getExtensions] ++
   (if ext.geometryTriangle then [] else
     [.log "WARNING: device doesn't support ANARI_KHR_GEOMETRY_TRIANGLE"]) ++
   (if ext.cameraPerspective then [] else
     [.log "WARNING: device doesn't support ANARI_KHR_CAMERA_PERSPECTIVE"]) ++
   (if ext.materialMatte then [] else
     [.log "WARNING: device doesn't support ANARI_KHR_MATERIAL_MATTE"]) ++
   (if ext.frameCompletionCallback then [] else
     [.log "INFO: device doesn't support ANARI_KHR_FRAME_COMPLETION_CALLBACK"]) ++
   [.newDevice "default", .log "Creating a renderer",
    .newObject .renderer "default",
    .setParam .renderer "name" (.strV "MainRenderer"),
    .setParam .renderer "ambientRadiance" (.floatV 1),
    .commit .renderer])

/-- The quad's vertex positions (main.cpp:120-123). -/
def meshVertices : List Vec3 :=
  [(-1, -1, 3), (-1, 1, 3), (1, -1, 3), (1, 1, 3)]

/-- The quad's per-vertex colors (main.cpp:124-127). -/
def meshColors : List Vec4 :=
  [(9/10, 1/2, 1/2, 1), (4/5, 4/5, 4/5, 1), (4/5, 4/5, 4/5, 1),
   (1/2, 9/10, 1/2, 1)]

/-- The quad's triangle indices (main.cpp:128). -/
def meshIndices : List UVec3 := [(0, 1, 2), (1, 2, 3)]

/-- `RenderSystem::CreateScene()` (main.cpp:99-157): set the camera member
vectors, create and commit the camera, world, mesh, material and surface;
move mesh and material into the surface, attach the surface to the world,
release the surface, commit the world. -/
def RSState.createScene (s : RSState) : RSState × List Event :=
  ({ s with
      camera_position_ := (0, 0, 0)
      camera_up_ := (0, 1, 0)
      camera_direction_ := (1/10, 0, 1)
      camera_ := true
      world_ := true },
   [.log "Creating a scene",
    .newObject .camera "perspective",
    .setParam .camera "aspect" (.floatV (640 / 480)),
    .setParam .camera "position" (.vec3V (0, 0, 0)),
    .setParam .camera "up" (.vec3V (0, 1, 0)),
    .setParam .camera "direction" (.vec3V (1/10, 0, 1)),
    .commit .camera,
    .newObject .world "",
    .newObject .mesh "triangle",
    .setParamArray .mesh "vertex.position" (.vec3Arr meshVertices),
    .setParamArray .mesh "vertex.color" (.vec4Arr meshColors),
    .setParamArray .mesh "primitive.index" (.uvec3Arr meshIndices),
    .commit .mesh,
    .newObject .mat "matte",
    .setParam .mat "color" (.strV "color"),
    .commit .mat,
    .newObject .surface "",
    .setAndReleaseParam .surface "geometry" .mesh,
    .setAndReleaseParam .surface "material" .mat,
    .setParam .surface "id" (.natV 2),
    .commit .surface,
    .setParamArray .world "surface" (.objArr [.surface]),
    .setParam .world "id" (.natV 3),
    .release .surface,
    .commit .world])

/-- `RenderSystem::SetupFrame()` (main.cpp:159-174): create the frame, move
renderer/camera/world into it, set the completion callback and the four
output channels, commit. -/
def RSState.setupFrame (s : RSState) : RSState × List Event :=
  ({ s with frame_ := true },
   [.log "Setuping frame",
    .newObject .frame "",
    .setAndReleaseParam .frame "renderer" .renderer,
    .setAndReleaseParam .frame "camera" .camera,
    .setAndReleaseParam .frame "world" .world,
    .setParam .frame "frameCompletionCallback" (.callbackV "onFrameCompletion"),
    .setParam .frame "channel.color" (.dataTypeV "ANARI_UFIXED8_RGBA_SRGB"),
    .setParam .frame "channel.primitiveId" (.dataTypeV "ANARI_UINT32"),
    .setParam .frame "channel.objectId" (.dataTypeV "ANARI_UINT32"),
    .setParam .frame "channel.instanceId" (.dataTypeV "ANARI_UINT32"),
    .commit .frame])

/-- `RenderSystem::GetCameraPosition()` (main.cpp:176). -/
def RSState.GetCameraPosition (s : RSState) : Vec3 := s.camera_position_

/-- `RenderSystem::GetCameraUp()` (main.cpp:177). -/
def RSState.GetCameraUp (s : RSState) : Vec3 := s.camera_up_

/-- `RenderSystem::GetCameraDirection()` (main.cpp:178). -/
def RSState.GetCameraDirection (s : RSState) : Vec3 := s.camera_direction_

/-- `RenderSystem::UpdateCamera(pos, up, dir)` (main.cpp:180-188): store the
three vectors, set the camera's position/up/direction parameters and
recommit the camera. -/
def RSState.updateCamera (pos up dir : Vec3) (s : RSState) :
    RSState × List Event :=
  ({ s with
      camera_position_ := pos
      camera_up_ := up
      camera_direction_ := dir },
   [.setParam .camera "position" (.vec3V pos),
    .setParam .camera "up" (.vec3V up),
    .setParam .camera "direction" (.vec3V dir),
    .commit .camera])

/-- `RenderSystem::GetFrameSize()` (main.cpp:190). -/
def RSState.GetFrameSize (s : RSState) : UVec2 := s.frame_size_

/-- `RenderSystem::UpdateFrameSize(size)` (main.cpp:192-196): store the size,
set the frame's "size" parameter and recommit the frame. -/
def RSState.updateFrameSize (size : UVec2) (s : RSState) :
    RSState × List Event :=
  ({ s with frame_size_ := size },
   [.setParam .frame "size" (.uvec2V size), .commit .frame])

/-- `RenderSystem::RenderFrame()` (main.cpp:198-201): issue a render, then
block on the matching wait. -/
def RSState.renderFrame (s : RSState) : RSState × List Event :=
  (s, [.render, .wait])

/-- `RenderSystem::MapFrame()` (main.cpp:203-205). -/
def RSState.mapFrame (s : RSState) : RSState × List Event := (s, [.mapFrame])

/-- `RenderSystem::UnmapFrame()` (main.cpp:207). -/
def RSState.unmapFrame (s : RSState) : RSState × List Event :=
  (s, [.unmapFrame])

/-! ## DisplaySystem -/

/-- The state of `DisplaySystem` (main.cpp:264-295): a possibly-null
`unique_ptr<WindowWrapper>`; the wrapper stores a possibly-null
`GLFWwindow*`, embedded as a `Bool` recording whether the window handle is
non-null. -/
structure DSState where
  window_wrapper_ : Option Bool
deriving DecidableEq, Repr

/-- A default-constructed `DisplaySystem`: the wrapper pointer is null. -/
def DSState.initial : DSState where
  window_wrapper_ := none

/-- `DisplaySystem::CreateWindow()` (main.cpp:270-289).  `created` is the
outcome of the external `glfwCreateWindow` call (`false` embeds a null
return) and `err` the string `glfwGetError` reports then.  One creation
attempt is made; on failure a diagnostic is printed and execution continues,
storing the null window in a fresh wrapper. -/
def DSState.createWindow (created : Bool) (err : String) (_s : DSState) :
    DSState × List Event :=
  ({ window_wrapper_ := some created },
   [.log "Info: Creating a window", .createWindowCall 640 480 "glfw3-window"] ++
   (if created then [] else
     [.log ("Error: Cannot create a window, err=" ++ err)]) ++
   [.makeContextCurrent, .setWindowUserPointer, .setKeyCallback])

/-! ## The render loop and the whole program -/

/-- The external inputs one iteration of the render loop observes: the
elapsed time (`std::chrono`, main.cpp:314-316) and the framebuffer size
polled by `glfwGetFramebufferSize` (main.cpp:319-322). -/
structure LoopInput where
  time : Scalar
  fbSize : UVec2
deriving DecidableEq, Repr

/-- One iteration of the render loop body (main.cpp:313-365): poll the
framebuffer size and update the frame size, update the camera position's
y-component to `sin(time)`, render and wait, map the frame, draw it, swap
buffers, unmap, poll events.  `sn` embeds `std::sin` as an abstract
function. -/
def loopBody (sn : Scalar → Scalar) (inp : LoopInput) (s : RSState) :
    RSState × List Event :=
  let (s1, e1) := s.updateFrameSize inp.fbSize
  let pos := s1.GetCameraPosition
  let up := s1.GetCameraUp
  let dir := s1.GetCameraDirection
  let pos' : Vec3 := (pos.1, sn inp.time, pos.2.2)
  let (s2, e2) := s1.updateCamera pos' up dir
  let (s3, e3) := s2.renderFrame
  let (s4, e4) := s3.mapFrame
  let (s5, e5) := s4.unmapFrame
  (s5,
   [.pollFramebufferSize inp.fbSize] ++ e1 ++ e2 ++ e3 ++ e4 ++
   [.glViewport inp.fbSize, .glClearColor (3/10, 3/10, 3/10, 1), .glClear,
    .glDrawPixels inp.fbSize, .swapBuffers] ++ e5 ++ [.pollEvents])

/-- The render loop run over a list of per-iteration inputs, accumulating
the trace. -/
def runLoop (sn : Scalar → Scalar) (inputs : List LoopInput) (s : RSState) :
    RSState × List Event :=
  match inputs with
  | [] => (s, [])
  | inp :: rest =>
      let (s', es) := loopBody sn inp s
      let (s'', es') := runLoop sn rest s'
      (s'', es ++ es')

/-- The `RenderSystem` state after `Init(); CreateScene(); SetupFrame()` as
`main` performs them (main.cpp:306-309). -/
def setupState (ext : Extensions) : RSState :=
  (((RSState.initial.init ext).1.createScene).1.setupFrame).1

/-- The trace of `main`'s setup phase followed by `RenderSystem`'s
destruction at scope exit: `Init(); CreateScene(); SetupFrame()` and then
`~RenderSystem()`.  The render loop in between only touches already-created
objects, so this trace carries the whole object-lifecycle story. -/
def setupAndTeardownTrace (ext : Extensions) : List Event :=
  let (s1, e1) := RSState.initial.init ext
  let (s2, e2) := s1.createScene
  let (s3, e3) := s2.setupFrame
  e1 ++ e2 ++ e3 ++ s3.dtor

/-! ## Trace observations -/

/-- Does an event create an ANARI object? -/
def Event.created? : Event → Option Obj
  | .newObject o _ => some o
  | _ => none

/-- Is the event a release of object `o`? -/
def Event.isRelease (o : Obj) : Event → Bool
  | .release o' => o' = o
  | _ => false

/-- Is the event an ownership transfer of `o` into some parent
(`anari::setAndReleaseParameter`)? -/
def Event.isTransfer (o : Obj) : Event → Bool
  | .setAndReleaseParam _ _ c => c = o
  | _ => false

/-- Is the event a render request? -/
def Event.isRender : Event → Bool
  | .render => true
  | _ => false

/-- Is the event the blocking wait on a frame? -/
def Event.isWait : Event → Bool
  | .wait => true
  | _ => false

/-- Is the event the buffer swap? -/
def Event.isSwap : Event → Bool
  | .swapBuffers => true
  | _ => false

/-- Does the event set the mesh's "vertex.color" parameter? -/
def Event.isMeshColorUpdate : Event → Bool
  | .setParamArray .mesh "vertex.color" _ => true
  | .setParam .mesh "vertex.color" _ => true
  | _ => false

/-- The prefix of a trace strictly before the device is released. -/
def beforeDeviceRelease (tr : List Event) : List Event :=
  tr.takeWhile (fun e => !(e.isRelease .device))

/-- Object `o` is handled before the device is released: it is either
explicitly released or transferred into a parent in the prefix before
`release device`. -/
def handledBeforeDeviceRelease (tr : List Event) (o : Obj) : Prop :=
  ∃ e ∈ beforeDeviceRelease tr, e.isRelease o ∨ e.isTransfer o

instance (tr : List Event) (o : Obj) :
    Decidable (handledBeforeDeviceRelease tr o) := by
  unfold handledBeforeDeviceRelease; infer_instance

/-- Is the event the `glfwCreateWindow` call? -/
def Event.isCreateWindowCall : Event → Bool
  | .createWindowCall .. => true
  | _ => false

/-- Is the event an object-lifecycle event (creation, release or ownership
transfer of an ANARI object)? -/
def Event.isLifecycle : Event → Bool
  | .newObject .. => true
  | .release _ => true
  | .setAndReleaseParam .. => true
  | .newDevice _ => true
  | .unloadLibrary => true
  | _ => false

/-- The camera state the render loop is meant to preserve: up and direction
at their `CreateScene` values, camera position's x and z components zero. -/
def cameraInvariant (s : RSState) : Prop :=
  s.camera_up_ = (0, 1, 0) ∧ s.camera_direction_ = (1/10, 0, 1) ∧
  s.camera_position_.1 = 0 ∧ s.camera_position_.2.2 = 0

/-- One loop iteration only changes the frame size and the camera
position's y-component (to `sin` of the iteration's elapsed time). -/
theorem loopBody_state (sn : Scalar → Scalar) (inp : LoopInput)
    (s : RSState) :
    (loopBody sn inp s).1 =
      { s with
          frame_size_ := inp.fbSize
          camera_position_ :=
            (s.camera_position_.1, sn inp.time, s.camera_position_.2.2) } :=
  rfl

/-- Unfolding one loop iteration's state. -/
theorem runLoop_cons_state (sn : Scalar → Scalar) (inp : LoopInput)
    (rest : List LoopInput) (s : RSState) :
    (runLoop sn (inp :: rest) s).1 =
      (runLoop sn rest (loopBody sn inp s).1).1 :=
  rfl

/-- Running the loop over concatenated input lists composes. -/
theorem runLoop_append_state (sn : Scalar → Scalar)
    (l₁ l₂ : List LoopInput) (s : RSState) :
    (runLoop sn (l₁ ++ l₂) s).1 = (runLoop sn l₂ (runLoop sn l₁ s).1).1 := by
  induction l₁ generalizing s with
  | nil => rfl
  | cons inp rest ih =>
      rw [List.cons_append, runLoop_cons_state, runLoop_cons_state, ih]

/-- The render loop preserves the camera invariant. -/
theorem runLoop_preserves_cameraInvariant (sn : Scalar → Scalar)
    (inputs : List LoopInput) :
    ∀ s : RSState, cameraInvariant s →
      cameraInvariant (runLoop sn inputs s).1 := by
  induction inputs with
  | nil => exact fun s h => h
  | cons inp rest ih =>
      intro s h
      rw [runLoop_cons_state]
      exact ih _ ⟨h.1, h.2.1, h.2.2.1, h.2.2.2⟩

/-! ## Theorems -/

/-- C1: for every key input delivered to the key handler with the
close-request flag unset, the flag ends up set exactly when the input is a
press of the escape key; moreover any key other than escape leaves the
window state unchanged (those keys only log). -/
theorem HandleKey_close_iff_escape_press (key scancode action mods : Int) :
    ((HandleKey key scancode action mods ⟨false⟩).1.shouldClose = true ↔
      action = GLFW_PRESS ∧ key = GLFW_KEY_ESCAPE) ∧
    (key ≠ GLFW_KEY_ESCAPE →
      (HandleKey key scancode action mods ⟨false⟩).1 = ⟨false⟩) := by
  unfold HandleKey
  split_ifs <;> simp_all

/-- Witness for C1's hypothesis: a press of the A key leaves the
close-request flag unset. -/
theorem HandleKey_close_iff_escape_press_witness :
    (HandleKey 65 0 1 0 ⟨false⟩).1 = ⟨false⟩ :=
  (HandleKey_close_iff_escape_press 65 0 1 0).2 (by decide)

/-- C8: for every key and every non-press action, `HandleKey` changes
nothing: the window state is returned untouched and no event (in particular
no log) is emitted. -/
theorem HandleKey_nonpress_noop (key scancode action mods : Int)
    (w : WinState) (h : action ≠ GLFW_PRESS) :
    HandleKey key scancode action mods w = (w, []) := by
  unfold HandleKey
  simp [h]

/-- Witness for C8: releasing (action 0) the escape key does nothing. -/
theorem HandleKey_nonpress_noop_witness :
    HandleKey 256 0 0 0 ⟨false⟩ = (⟨false⟩, []) :=
  HandleKey_nonpress_noop 256 0 0 0 ⟨false⟩ (by decide)

/-- C3: for every `RenderSystem` state, the destructor's trace is a
subsequence of `[release frame, release device, unloadLibrary]`: the frame
is always released before the device, the device always before the library
is unloaded, and no release or unload ever happens in another order. -/
theorem dtor_ordered (s : RSState) :
    List.Sublist s.dtor
      [Event.release .frame, Event.release .device, Event.unloadLibrary] := by
  rcases s with ⟨lib, dev, ren, wor, cp, cd, cu, cam, fs, fr⟩
  cases lib <;> cases dev <;> cases fr <;> simp [RSState.dtor]

/-- C10: a `RenderSystem` destroyed with null device and library handles
performs no release or unload at all; the frame is only released when both
the device and the frame handle are non-null; and every release the
destructor issues requires a non-null device handle. -/
theorem dtor_guarded :
    (∀ s : RSState, s.device_ = false → s.library_ = false → s.dtor = []) ∧
    (∀ s : RSState, Event.release .frame ∈ s.dtor →
      s.device_ = true ∧ s.frame_ = true) ∧
    (∀ s : RSState, ∀ o : Obj, Event.release o ∈ s.dtor →
      s.device_ = true) := by
  refine ⟨fun s hdev hlib => ?_, fun s hmem => ?_, fun s o hmem => ?_⟩ <;>
    rcases s with ⟨lib, dev, ren, wor, cp, cd, cu, cam, fs, fr⟩ <;>
      cases lib <;> cases dev <;> cases fr <;> simp_all [RSState.dtor]

/-- Witness for C10's hypotheses: a default-constructed `RenderSystem`'s
destructor issues no call. -/
theorem dtor_guarded_witness : RSState.initial.dtor = [] :=
  dtor_guarded.1 RSState.initial rfl rfl

/-- C7: after `UpdateCamera(pos, up, dir)` the three getters return exactly
`pos`, `up`, `dir` and the camera's parameters are set and the camera
recommitted; after `UpdateFrameSize(size)`, `GetFrameSize` returns `size`
and the frame's size parameter is set and the frame recommitted. -/
theorem updateCamera_updateFrameSize_spec (pos up dir : Vec3) (size : UVec2)
    (s : RSState) :
    (s.updateCamera pos up dir).1.GetCameraPosition = pos ∧
    (s.updateCamera pos up dir).1.GetCameraUp = up ∧
    (s.updateCamera pos up dir).1.GetCameraDirection = dir ∧
    (s.updateCamera pos up dir).2 =
      [.setParam .camera "position" (.vec3V pos),
       .setParam .camera "up" (.vec3V up),
       .setParam .camera "direction" (.vec3V dir),
       .commit .camera] ∧
    (s.updateFrameSize size).1.GetFrameSize = size ∧
    (s.updateFrameSize size).2 =
      [.setParam .frame "size" (.uvec2V size), .commit .frame] :=
  ⟨rfl, rfl, rfl, rfl, rfl, rfl⟩

/-- C6: when `glfwCreateWindow` fails, `CreateWindow` makes exactly one
creation attempt (no retry), logs one diagnostic, continues through the
remaining setup calls, and leaves the stored window handle empty (the
wrapper holds a null window). -/
theorem createWindow_failure_behavior (err : String) (s : DSState) :
    ((s.createWindow false err).1.window_wrapper_ = some false) ∧
    ((s.createWindow false err).2.countP Event.isCreateWindowCall = 1) ∧
    ((s.createWindow false err).2 =
      [.log "Info: Creating a window",
       .createWindowCall 640 480 "glfw3-window",
       .log ("Error: Cannot create a window, err=" ++ err),
       .makeContextCurrent, .setWindowUserPointer, .setKeyCallback]) :=
  ⟨rfl, rfl, rfl⟩

/-- C2: in every iteration of the render loop the frame size is set from the
freshly polled framebuffer size and committed (trace positions 1, 2) before
the iteration's single render request (position 7), which is followed by the
single matching wait (position 8) before the single buffer swap
(position 14); the stored frame size equals the polled size. -/
theorem loopBody_frame_size_before_render (sn : Scalar → Scalar)
    (inp : LoopInput) (s : RSState) :
    ((loopBody sn inp s).1.frame_size_ = inp.fbSize) ∧
    ((loopBody sn inp s).2.countP Event.isRender = 1) ∧
    ((loopBody sn inp s).2.countP Event.isWait = 1) ∧
    ((loopBody sn inp s).2.countP Event.isSwap = 1) ∧
    ((loopBody sn inp s).2.get? 0 = some (.pollFramebufferSize inp.fbSize)) ∧
    ((loopBody sn inp s).2.get? 1 =
      some (.setParam .frame "size" (.uvec2V inp.fbSize))) ∧
    ((loopBody sn inp s).2.get? 2 = some (.commit .frame)) ∧
    ((loopBody sn inp s).2.get? 7 = some .render) ∧
    ((loopBody sn inp s).2.get? 8 = some .wait) ∧
    ((loopBody sn inp s).2.get? 14 = some .swapBuffers) :=
  ⟨rfl, rfl, rfl, rfl, rfl, rfl, rfl, rfl, rfl, rfl⟩

/-- C4: in the program's full setup-and-teardown trace (for any combination
of extension-support flags), every created scene object is released or
transferred into a parent before the device is released and is transferred
at most once; geometry and material move into the surface, the surface is
attached to the world and then released, and renderer, camera and world move
into the frame; the render loop itself performs no lifecycle event. -/
theorem scene_object_lifecycle :
    (∀ a b c d : Bool,
      (∀ o ∈ (setupAndTeardownTrace ⟨a, b, c, d⟩).filterMap Event.created?,
        handledBeforeDeviceRelease (setupAndTeardownTrace ⟨a, b, c, d⟩) o ∧
        (setupAndTeardownTrace ⟨a, b, c, d⟩).countP (Event.isTransfer o) ≤ 1) ∧
      Event.setAndReleaseParam .surface "geometry" .mesh ∈
        setupAndTeardownTrace ⟨a, b, c, d⟩ ∧
      Event.setAndReleaseParam .surface "material" .mat ∈
        setupAndTeardownTrace ⟨a, b, c, d⟩ ∧
      Event.release .surface ∈ setupAndTeardownTrace ⟨a, b, c, d⟩ ∧
      (setupAndTeardownTrace ⟨a, b, c, d⟩).indexOf
          (Event.setParamArray .world "surface" (.objArr [.surface])) <
        (setupAndTeardownTrace ⟨a, b, c, d⟩).indexOf
          (Event.release .surface) ∧
      Event.setAndReleaseParam .frame "renderer" .renderer ∈
        setupAndTeardownTrace ⟨a, b, c, d⟩ ∧
      Event.setAndReleaseParam .frame "camera" .camera ∈
        setupAndTeardownTrace ⟨a, b, c, d⟩ ∧
      Event.setAndReleaseParam .frame "world" .world ∈
        setupAndTeardownTrace ⟨a, b, c, d⟩) ∧
    (∀ (sn : Scalar → Scalar) (inputs : List LoopInput) (s : RSState),
      (runLoop sn inputs s).2.countP Event.isLifecycle = 0) := by
  constructor
  · decide
  · intro sn inputs
    induction inputs with
    | nil => intro s; rfl
    | cons inp rest ih =>
        intro s
        rw [show (runLoop sn (inp :: rest) s).2 =
              (loopBody sn inp s).2 ++
                (runLoop sn rest (loopBody sn inp s).1).2 from rfl,
            List.countP_append, ih]
        rfl

/-- C5, counterexample: the render-loop iteration at elapsed time 0 with a
640×480 framebuffer, starting from the freshly set-up `RenderSystem`,
contains no mesh-color update at all — refuting that each displayed frame
reflects a mesh-color update. -/
theorem loopBody_no_mesh_color_update :
    (loopBody (fun _ => 0) ⟨0, (640, 480)⟩
        (setupState ⟨true, true, true, true⟩)).2.countP
      Event.isMeshColorUpdate = 0 := by
  decide

/-- C5, amended: every iteration of the render loop animates the camera —
it sets the camera position's y-component to `sin` of the elapsed time and
recommits the camera before the iteration's render — but the mesh's
per-vertex colors are never updated in the loop; they are set exactly once,
during scene creation. -/
theorem loop_animates_camera_only (sn : Scalar → Scalar) (inp : LoopInput)
    (s : RSState) :
    ((loopBody sn inp s).2.get? 3 =
      some (.setParam .camera "position"
        (.vec3V (s.camera_position_.1, sn inp.time,
                 s.camera_position_.2.2)))) ∧
    ((loopBody sn inp s).2.get? 6 = some (.commit .camera)) ∧
    ((loopBody sn inp s).2.get? 7 = some .render) ∧
    ((loopBody sn inp s).2.countP Event.isMeshColorUpdate = 0) ∧
    ((s.createScene).2.countP Event.isMeshColorUpdate = 1) :=
  ⟨rfl, rfl, rfl, rfl, rfl⟩

/-- C9: the freshly set-up camera satisfies the invariant (up `(0,1,0)`,
direction `(1/10,0,1)`, position x and z zero), the invariant holds after
any number of loop iterations, and the iteration consuming input `inp`
leaves the camera position exactly `(0, sin(inp.time), 0)`. -/
theorem loop_camera_invariant (ext : Extensions) (sn : Scalar → Scalar)
    (inputs : List LoopInput) :
    cameraInvariant (setupState ext) ∧
    cameraInvariant (runLoop sn inputs (setupState ext)).1 ∧
    ∀ inp : LoopInput,
      (runLoop sn (inputs ++ [inp]) (setupState ext)).1.camera_position_ =
        (0, sn inp.time, 0) := by
  have h0 : cameraInvariant (setupState ext) := ⟨rfl, rfl, rfl, rfl⟩
  refine ⟨h0, runLoop_preserves_cameraInvariant sn inputs _ h0, fun inp => ?_⟩
  rw [runLoop_append_state]
  obtain ⟨-, -, hx, hz⟩ :=
    runLoop_preserves_cameraInvariant sn inputs _ h0
  rw [show (runLoop sn [inp] (runLoop sn inputs (setupState ext)).1).1 =
        (loopBody sn inp (runLoop sn inputs (setupState ext)).1).1 from rfl,
      loopBody_state]
  simp only []
  rw [hx, hz]

end Demo
